import Mathlib

/-!
Verification of the quiz application in `app.py` (a Streamlit four-choice
quiz).  This file gives a shallow embedding of the pure logic of the
application:

* the CSV question-bank loader `load_questions_from_csv` (app.py lines 37-119),
* the append operation `add_question_to_csv` (lines 121-139) together with the
  `st.cache_data` cache it clears,
* the quiz session state held in `st.session_state` and the answer handler
  `process_answer` (lines 271-292),
* the quiz start logic `start_quiz` (lines 187-203, with `random.shuffle`
  modelled as a relation), and
* the results accuracy computation of `display_results` (lines 294-304,
  with Python floats modelled as rationals).

Rows of the CSV are modelled as records of optional strings: a field is
`none` when the corresponding column is absent from the file header
(Python's `DictReader` then has no such key and `row.get` falls back to its
default), and `some s` when the column is present with cell contents `s`
(possibly empty).
-/

/-- QuestionRecord as built by `load_questions_from_csv` (app.py lines 94-101):
a dict with keys id, difficulty, question_text, choices,
correct_answer_index, comment. -/
structure Question where
  id : String
  difficulty : String
  question_text : String
  choices : List String
  correct_answer_index : Nat
  comment : String
  deriving DecidableEq

/-- One element of `st.session_state.answered_details`, as appended by
`process_answer` (app.py lines 279-286). -/
structure AnswerEntry where
  question_id : String
  question_text : String
  user_choice_text : String
  correct_answer_text : String
  is_correct : Bool
  comment : String
  deriving DecidableEq

/-- The quiz-relevant fields of `st.session_state`, as initialised by
`initialize_session_state` (app.py lines 15-31). -/
structure SessionState where
  quiz_started : Bool
  questions : List Question
  current_question_index : Nat
  score : Nat
  answered_details : List AnswerEntry
  last_answer_correct : Option Bool
  last_answer_comment : String
  show_feedback : Bool
  deriving DecidableEq

/-- The initial session state (app.py lines 15-31). -/
def initial_session_state : SessionState :=
  { quiz_started := false
    questions := []
    current_question_index := 0
    score := 0
    answered_details := []
    last_answer_correct := none
    last_answer_comment := ""
    show_feedback := false }

/-- One data row of the CSV file as seen through `csv.DictReader`.  A field
is `none` iff its column is absent from the header; `some s` means the
column exists and the cell holds the string `s`. -/
structure Row where
  qNo : Option String        -- 問題No
  difficulty : Option String -- 難易度
  qText : Option String      -- 問題
  choice1 : Option String    -- 選択肢1
  choice2 : Option String    -- 選択肢2
  choice3 : Option String    -- 選択肢3
  choice4 : Option String    -- 選択肢4
  correct : Option String    -- 正解
  comment : Option String    -- コメント
  status : Option String     -- ステータス
  deriving DecidableEq

/-- A CSV file: its header line (list of column names) and its data rows. An
empty header models a zero-byte file. -/
structure CSVFile where
  header : List String
  rows : List Row
  deriving DecidableEq

/-- CSV_HEADERS (app.py line 10). -/
def csvHeaders : List String :=
  ["問題No", "難易度", "問題", "選択肢1", "選択肢2", "選択肢3", "選択肢4",
   "正解", "コメント", "ステータス"]

/-- required_headers (app.py line 60): every header except ステータス. -/
def requiredHeaders : List String :=
  csvHeaders.filter (fun h => h ≠ "ステータス")

/-- Python truthiness of a `row.get` result: `None` and the empty string are
falsy, every other string is truthy. -/
def truthy : Option String → Bool
  | some s => s ≠ ""
  | none => false

/-- Models `any(row.values())` (app.py line 73): some cell of the row is a
non-empty string. -/
def rowAny (r : Row) : Bool :=
  truthy r.qNo || truthy r.difficulty || truthy r.qText ||
  truthy r.choice1 || truthy r.choice2 || truthy r.choice3 ||
  truthy r.choice4 || truthy r.correct || truthy r.comment || truthy r.status

/-- Models app.py line 76:
`[row[f'選択肢{i}'] for i in range(1, 5) if row.get(f'選択肢{i}')]` —
the non-empty choice cells, in column order. -/
def rowChoices (r : Row) : List String :=
  [r.choice1, r.choice2, r.choice3, r.choice4].filterMap fun o =>
    match o with
    | some s => if s = "" then none else some s
    | none => none

/-- The characters Python `str.isspace()` accepts, which are exactly the
ones a no-argument `str.strip()` removes: ASCII whitespace 0x09-0x0D and
0x20, the separators 0x1C-0x1F, NEL 0x85, NBSP 0xA0, Ogham space 0x1680,
the Unicode spaces 0x2000-0x200A, line/paragraph separators 0x2028/0x2029,
narrow NBSP 0x202F, math space 0x205F, and the ideographic (full-width)
space 0x3000. -/
def pyIsSpace (c : Char) : Bool :=
  (0x09 ≤ c.toNat && c.toNat ≤ 0x0D) ||
  (0x1C ≤ c.toNat && c.toNat ≤ 0x1F) ||
  c.toNat == 0x20 || c.toNat == 0x85 || c.toNat == 0xA0 ||
  c.toNat == 0x1680 ||
  (0x2000 ≤ c.toNat && c.toNat ≤ 0x200A) ||
  c.toNat == 0x2028 || c.toNat == 0x2029 || c.toNat == 0x202F ||
  c.toNat == 0x205F || c.toNat == 0x3000

/-- Models Python `str.strip()` with no argument: remove leading and
trailing characters for which `str.isspace()` holds. -/
def pyStrip (s : String) : String :=
  ⟨((s.data.dropWhile pyIsSpace).reverse.dropWhile pyIsSpace).reverse⟩

/-- Digit-string to number; `none` unless the character list is non-empty and
all digits. -/
def digitsToNat : List Char → Option Nat
  | [] => none
  | cs =>
    if cs.all Char.isDigit then
      some (cs.foldl (fun a c => a * 10 + (c.toNat - '0'.toNat)) 0)
    else none

/-- Models Python `int(s)` on a string (app.py line 88): surrounding
whitespace is stripped, an optional sign is allowed, and the remainder must
be a non-empty digit string; `none` models the `ValueError` path.  (Digit
separators, which no quiz data uses, are not modelled.) -/
def pyInt (s : String) : Option Int :=
  match (pyStrip s).data with
  | '-' :: rest => (digitsToNat rest).map fun n => -(n : Int)
  | '+' :: rest => (digitsToNat rest).map fun n => (n : Int)
  | l => (digitsToNat l).map fun n => (n : Int)

/-- The per-row diagnostics `st.warning` can emit inside the loader loop
(app.py lines 80, 85, 91, 103). -/
inductive Warning where
  | insufficientChoices
  | correctEmpty
  | correctOutOfRange
  | correctNotANumber
  deriving DecidableEq

/-- One iteration of the loader loop (app.py lines 65-107) on accumulated
(questions, warnings).  The ステータス check (line 68) comes first and skips
silently; then the empty-row skip (line 73); then choice-count (line 79),
empty-correct (line 84), `int` parse (lines 88/102-103) and range (line 90)
validation, each skipping with a warning; a surviving row appends one
question dict with the defaults of lines 94-101. -/
def parse_row_step (acc : List Question × List Warning) (r : Row) :
    List Question × List Warning :=
  if pyStrip (r.status.getD "有効") = "無効" then acc
  else if rowAny r = false then acc
  else
    let choices := rowChoices r
    if choices.length < 4 then (acc.1, acc.2 ++ [Warning.insufficientChoices])
    else
      match r.correct with
      | none => (acc.1, acc.2 ++ [Warning.correctEmpty])
      | some cs =>
        if cs = "" then (acc.1, acc.2 ++ [Warning.correctEmpty])
        else
          match pyInt cs with
          | none => (acc.1, acc.2 ++ [Warning.correctNotANumber])
          | some k =>
            let idx : Int := k - 1
            if 0 ≤ idx ∧ idx < (choices.length : Int) then
              (acc.1 ++
                [{ id := r.qNo.getD (toString (acc.1.length + 1))
                   difficulty := r.difficulty.getD "N/A"
                   question_text := r.qText.getD "問題文がありません"
                   choices := choices
                   correct_answer_index := idx.toNat
                   comment := r.comment.getD "" }], acc.2)
            else (acc.1, acc.2 ++ [Warning.correctOutOfRange])

/-- Result of `load_questions_from_csv` on an existing file: either the
header-validation error of app.py lines 61-63 (which names the columns
listed in the `st.error` message and returns no records), or the loaded
bank together with the per-row warnings. -/
inductive LoadResult where
  | schemaError (reported : List String)
  | ok (bank : List Question) (warnings : List Warning)
  deriving DecidableEq

/-- load_questions_from_csv (app.py lines 55-119) on an existing file: check
that every required header is present (line 61) — on failure `st.error`
names the full `required_headers` list and `[]` is returned — then fold the
row loop over the data rows. -/
def load_questions_from_csv (f : CSVFile) : LoadResult :=
  if requiredHeaders.all (fun h => f.header.contains h) then
    let r := f.rows.foldl parse_row_step ([], [])
    LoadResult.ok r.1 r.2
  else
    LoadResult.schemaError requiredHeaders

/-- The file plus the `st.cache_data` cache of `load_questions_from_csv`. -/
structure AppState where
  file : CSVFile
  cache : Option LoadResult
  deriving DecidableEq

/-- add_question_to_csv (app.py lines 121-139): write a header first iff the
file is missing or empty (modelled: empty header), append the one row, and
clear the loader cache (`st.cache_data.clear()`, line 136). -/
def add_question_to_csv (st : AppState) (r : Row) : AppState :=
  { file :=
      { header := if st.file.header = [] then csvHeaders else st.file.header
        rows := st.file.rows ++ [r] }
    cache := none }

/-- A load going through the `st.cache_data` decorator: a cached result is
returned as is; otherwise the file is read and the result cached. -/
def load_cached (st : AppState) : LoadResult × AppState :=
  match st.cache with
  | some r => (r, st)
  | none =>
    let r := load_questions_from_csv st.file
    (r, { st with cache := some r })

/-- process_answer (app.py lines 271-292), merged with the guard of its only
caller `display_question` (line 232: when `current_question_index` is past
the end, results are shown instead, so `process_answer` is never called).
`none` models the paths on which Python raises before completing: a
`ValueError` from `choices.index` when the chosen text is not among the
choices (line 273, raised before any state mutation), or an `IndexError`
when `correct_answer_index` is out of range (line 283; unreachable for
loader-produced questions, whose index is validated). -/
def process_answer (s : SessionState) (user_choice_text : String) :
    Option SessionState :=
  match s.questions[s.current_question_index]? with
  | none => none
  | some q =>
    if user_choice_text ∈ q.choices then
      match q.choices[q.correct_answer_index]? with
      | none => none
      | some correctText =>
        let user_choice_index := q.choices.indexOf user_choice_text
        let isCorrect : Bool := user_choice_index == q.correct_answer_index
        some
          { quiz_started := s.quiz_started
            questions := s.questions
            current_question_index := s.current_question_index + 1
            score := s.score + (if isCorrect then 1 else 0)
            answered_details := s.answered_details ++
              [{ question_id := q.id
                 question_text := q.question_text
                 user_choice_text := user_choice_text
                 correct_answer_text := correctText
                 is_correct := isCorrect
                 comment := q.comment }]
            last_answer_correct := some isCorrect
            last_answer_comment := q.comment
            show_feedback := true }
    else none

/-- start_quiz (app.py lines 187-203) as a relation from the previous
session state and the loaded bank to the next state (`random.shuffle` makes
the result nondeterministic, so the shuffled pool is any permutation of the
bank).  With an empty bank the quiz is not started (lines 190-193); with a
non-empty bank every session field is reset and the pool is the whole
shuffled bank. -/
def start_quiz_rel (prev : SessionState) (bank : List Question)
    (next : SessionState) : Prop :=
  if bank = [] then
    next = { prev with questions := [], quiz_started := false }
  else
    next.questions.Perm bank ∧ next.quiz_started = true ∧
    next.current_question_index = 0 ∧ next.score = 0 ∧
    next.answered_details = [] ∧ next.last_answer_correct = none ∧
    next.last_answer_comment = "" ∧ next.show_feedback = false

instance (prev : SessionState) (bank : List Question) (next : SessionState) :
    Decidable (start_quiz_rel prev bank next) := by
  unfold start_quiz_rel
  infer_instance

/-- Session states reachable by starting a quiz and submitting any number of
answers. -/
inductive Reachable : SessionState → Prop where
  | start (prev : SessionState) (bank : List Question) (next : SessionState) :
      start_quiz_rel prev bank next → next.quiz_started = true → Reachable next
  | step (s : SessionState) (c : String) (s' : SessionState) :
      Reachable s → process_answer s c = some s' → Reachable s'

/-- The accuracy displayed by display_results (app.py lines 297-304): the
percentage `score / total * 100` when there is at least one question, and no
accuracy value at all (a warning is shown instead) when there are none.
Python float arithmetic is modelled exactly over ℚ. -/
def display_results_accuracy (s : SessionState) : Option ℚ :=
  if 0 < s.questions.length then
    some (((s.score : ℚ) / (s.questions.length : ℚ)) * 100)
  else none

/-- Following the SPEC's words (§4.2), not the source: `selectPool(bank, D,
N)` "filters `bank` to records whose `difficulty` is in
`allowedDifficulties`", returns "a pool of size
`min(N, |{q ∈ bank : q.difficulty ∈ D}|)` with no duplicate records",
sampled from the bank.  Used to compare the spec's claimed pool selection
with what `start_quiz` actually produces. -/
def selectPoolSpec (bank : List Question) (D : List String) (N : Nat)
    (pool : List Question) : Prop :=
  (∀ q ∈ pool, q.difficulty ∈ D) ∧
  pool.length = min N (bank.filter (fun q => q.difficulty ∈ D)).length ∧
  pool.Nodup ∧ (∀ q ∈ pool, q ∈ bank)

-- Concrete sample data used by witnesses and counterexamples.

/-- Sample question of difficulty "B". -/
def qB : Question :=
  { id := "1", difficulty := "B", question_text := "t"
    choices := ["a", "b", "c", "d"], correct_answer_index := 0, comment := "" }

/-- A session state freshly started on the one-question bank `[qB]`. -/
def sB : SessionState :=
  { quiz_started := true, questions := [qB], current_question_index := 0
    score := 0, answered_details := [], last_answer_correct := none
    last_answer_comment := "", show_feedback := false }

/-- A fully populated valid CSV row (difficulty A, correct answer 3,
status 有効). -/
def rValid : Row :=
  ⟨some "Q1", some "A", some "text", some "a", some "b", some "c", some "d",
   some "3", some "cm", some "有効"⟩

/-- The question `rValid` loads to. -/
def qValid : Question :=
  { id := "Q1", difficulty := "A", question_text := "text"
    choices := ["a", "b", "c", "d"], correct_answer_index := 2, comment := "cm" }

/-- A disabled row that would also fail choice-count and range validation:
its status cell carries a leading full-width space (U+3000) and a trailing
form feed, both of which Python `str.strip()` removes, so it resolves to
無効. -/
def rDis : Row :=
  ⟨some "Q9", some "A", some "x", some "a", some "", none, some "d",
   some "99", none, some "　無効\u000C"⟩

/-- A question whose choice list repeats the text "a" at indices 0 and 1,
with index 1 the correct one. -/
def qDup : Question :=
  { id := "D", difficulty := "A", question_text := "t"
    choices := ["a", "a", "b", "c"], correct_answer_index := 1, comment := "" }

/-- A session whose active question is `qDup`. -/
def sDup : SessionState :=
  { quiz_started := true, questions := [qDup], current_question_index := 0
    score := 0, answered_details := [], last_answer_correct := none
    last_answer_comment := "", show_feedback := false }

/-- A CSV file whose header lacks exactly the required column 正解. -/
def f9 : CSVFile :=
  ⟨["問題No", "難易度", "問題", "選択肢1", "選択肢2", "選択肢3", "選択肢4",
    "コメント", "ステータス"], []⟩

/-- An app state with an empty (just-created) file and a stale cached load
result, to exercise cache invalidation on append. -/
def stEmptyApp : AppState :=
  ⟨⟨[], []⟩, some (LoadResult.ok [qB] [])⟩

/-- A valid row as produced by the sidebar add-question form. -/
def rAdd : Row :=
  ⟨some "Q7", some "S", some "added", some "w", some "x", some "y", some "z",
   some "2", some "note", some "有効"⟩

/-- The question `rAdd` loads to. -/
def qAdd : Question :=
  { id := "Q7", difficulty := "S", question_text := "added"
    choices := ["w", "x", "y", "z"], correct_answer_index := 1, comment := "note" }

/-- An otherwise valid add-form row whose status is 無効. -/
def rDisAdd : Row :=
  ⟨some "Q8", some "S", some "added", some "w", some "x", some "y", some "z",
   some "2", some "note", some "無効"⟩

/-- A finished session with one question and a perfect score. -/
def sOneDone : SessionState :=
  { quiz_started := true, questions := [qB], current_question_index := 1
    score := 1, answered_details := [], last_answer_correct := some true
    last_answer_comment := "", show_feedback := true }

-- Helper lemmas (shared; not tied to a single claim).

theorem getD_indexOf_of_mem {l : List String} {a : String} (h : a ∈ l) :
    l.getD (l.indexOf a) "" = a := by
  induction l with
  | nil => simp at h
  | cons b t ih =>
    rw [List.indexOf_cons]
    by_cases hb : b = a
    · simp [hb]
    · have hba : (b == a) = false := by simp [hb]
      have hat : a ∈ t := by
        rcases List.mem_cons.mp h with h1 | h1
        · exact absurd h1.symm hb
        · exact h1
      rw [hba, cond_false, List.getD_cons_succ]
      exact ih hat

theorem getD_lt_indexOf_ne {l : List String} {a : String} {j : Nat}
    (hj : j < l.indexOf a) : l.getD j "" ≠ a := by
  induction l generalizing j with
  | nil =>
    have h0 : List.indexOf a ([] : List String) = 0 := rfl
    rw [h0] at hj
    omega
  | cons b t ih =>
    rw [List.indexOf_cons] at hj
    by_cases hb : b = a
    · have hba : (b == a) = true := by simp [hb]
      rw [hba, cond_true] at hj
      omega
    · have hba : (b == a) = false := by simp [hb]
      rw [hba, cond_false] at hj
      cases j with
      | zero => rw [List.getD_cons_zero]; exact hb
      | succ j =>
        rw [List.getD_cons_succ]
        exact ih (by omega)

theorem process_answer_some_spec {s : SessionState} {c : String}
    {s' : SessionState} (h : process_answer s c = some s') :
    ∃ q e, s.questions[s.current_question_index]? = some q ∧
      s.current_question_index < s.questions.length ∧
      s'.questions = s.questions ∧
      s'.current_question_index = s.current_question_index + 1 ∧
      s'.answered_details = s.answered_details ++ [e] ∧
      (s'.score = s.score ∨ s'.score = s.score + 1) := by
  unfold process_answer at h
  split at h
  next => simp at h
  next q hq =>
    split at h
    next hc =>
      split at h
      next => simp at h
      next ct hct =>
        simp only [Option.some.injEq] at h
        subst h
        refine ⟨q, _, hq, (List.getElem?_eq_some.mp hq).1, rfl, rfl, rfl, ?_⟩
        by_cases hcor :
            (q.choices.indexOf c == q.correct_answer_index) = true
        · right; simp [hcor]
        · left; simp [hcor]
    next hc => simp at h

theorem parse_row_step_valid (b : List Question) (w : List Warning) (r : Row)
    (c1 c2 c3 c4 cs : String) (k : Int)
    (h1 : r.choice1 = some c1) (h1n : c1 ≠ "")
    (h2 : r.choice2 = some c2) (h2n : c2 ≠ "")
    (h3 : r.choice3 = some c3) (h3n : c3 ≠ "")
    (h4 : r.choice4 = some c4) (h4n : c4 ≠ "")
    (hstat : pyStrip (r.status.getD "有効") ≠ "無効")
    (hcs : r.correct = some cs)
    (hk : pyInt cs = some k) (hk1 : 1 ≤ k) (hk4 : k ≤ 4) :
    parse_row_step (b, w) r =
      (b ++ [{ id := r.qNo.getD (toString (b.length + 1))
               difficulty := r.difficulty.getD "N/A"
               question_text := r.qText.getD "問題文がありません"
               choices := [c1, c2, c3, c4]
               correct_answer_index := (k - 1).toNat
               comment := r.comment.getD "" }], w) := by
  have hcs' : cs ≠ "" := by
    intro he
    rw [he] at hk
    simp [pyInt, pyStrip, digitsToNat] at hk
  have hchoices : rowChoices r = [c1, c2, c3, c4] := by
    simp [rowChoices, h1, h2, h3, h4, h1n, h2n, h3n, h4n]
  have hany : rowAny r = true := by
    simp [rowAny, truthy, h1, h1n]
  have hr1 : (0 : Int) ≤ k - 1 := by omega
  have hr2 : k - 1 < (4 : Int) := by omega
  simp only [parse_row_step, if_neg hstat, hany, Bool.true_eq_false,
    if_neg (Bool.false_ne_true ∘ Eq.symm), hchoices, hcs, hk, hcs']
  simp [hr1, hr2, hcs']

/-- C1: for every session with an active question, one `process_answer` call
with a chosen choice text that is among the question's choices advances
`current_question_index` by exactly 1, adds 1 to `score` iff the (first)
index of the chosen text equals `correct_answer_index` and 0 otherwise, and
appends exactly one entry to `answered_details` carrying the question id and
text, the chosen choice text, the correct choice text, the correctness flag
and the comment. -/
theorem c1_submit_answer_effect (s : SessionState) (q : Question) (c : String)
    (hq : s.questions[s.current_question_index]? = some q)
    (hc : c ∈ q.choices)
    (hidx : q.correct_answer_index < q.choices.length) :
    ∃ s' ct, q.choices[q.correct_answer_index]? = some ct ∧
      process_answer s c = some s' ∧
      s'.current_question_index = s.current_question_index + 1 ∧
      s'.score = s.score +
        (if q.choices.indexOf c = q.correct_answer_index then 1 else 0) ∧
      s'.answered_details = s.answered_details ++
        [{ question_id := q.id, question_text := q.question_text
           user_choice_text := c, correct_answer_text := ct
           is_correct := q.choices.indexOf c == q.correct_answer_index
           comment := q.comment }] ∧
      s'.questions = s.questions := by
  obtain ⟨ct, hct⟩ : ∃ ct, q.choices[q.correct_answer_index]? = some ct :=
    ⟨q.choices.get ⟨q.correct_answer_index, hidx⟩, List.getElem?_eq_getElem hidx⟩
  cases hp : process_answer s c with
  | none =>
    simp only [process_answer, hq, if_pos hc, hct] at hp
    exact Option.noConfusion hp
  | some s' =>
    have hp0 := hp
    simp only [process_answer, hq, if_pos hc, hct, Option.some.injEq] at hp
    refine ⟨s', ct, hct, rfl, ?_, ?_, ?_, ?_⟩
    · rw [← hp]
    · rw [← hp]
      by_cases hcor : q.choices.indexOf c = q.correct_answer_index
      · simp [beq_iff_eq, hcor]
      · simp [beq_iff_eq, hcor]
    · rw [← hp]
    · rw [← hp]

/-- Witness for C1 at a concrete session: answering `sB`'s single question
with its correct first choice. -/
theorem c1_witness :
    ∃ s', process_answer sB "a" = some s' ∧
      s'.current_question_index = 1 ∧ s'.score = 1 ∧
      s'.answered_details =
        [{ question_id := "1", question_text := "t", user_choice_text := "a"
           correct_answer_text := "a", is_correct := true, comment := "" }] := by
  obtain ⟨s', ct, hct, hp, hcur, hscore, hdet, hqs⟩ :=
    c1_submit_answer_effect sB qB "a" (by decide) (by decide) (by decide)
  refine ⟨s', hp, ?_, ?_, ?_⟩
  · rw [hcur]; decide
  · rw [hscore]; decide
  · rw [hdet]
    have hct' : ct = "a" := by
      have h2 : (some "a" : Option String) = some ct := by
        rw [← hct]; decide
      exact (Option.some.inj h2).symm
    rw [hct']
    decide

/-- C2: a source row that is not disabled, has all 4 choice cells non-empty,
and whose 正解 cell parses as an integer k with 1 ≤ k ≤ 4, makes the loader
loop append exactly one question record, whose choices are the row's four
choice strings in column order and whose `correct_answer_index` is k - 1
(zero-based); no warning is emitted for the row. -/
theorem c2_valid_row_loaded (b : List Question) (w : List Warning) (r : Row)
    (c1 c2 c3 c4 cs : String) (k : Int)
    (h1 : r.choice1 = some c1) (h1n : c1 ≠ "")
    (h2 : r.choice2 = some c2) (h2n : c2 ≠ "")
    (h3 : r.choice3 = some c3) (h3n : c3 ≠ "")
    (h4 : r.choice4 = some c4) (h4n : c4 ≠ "")
    (hstat : pyStrip (r.status.getD "有効") ≠ "無効")
    (hcs : r.correct = some cs)
    (hk : pyInt cs = some k) (hk1 : 1 ≤ k) (hk4 : k ≤ 4) :
    parse_row_step (b, w) r =
      (b ++ [{ id := r.qNo.getD (toString (b.length + 1))
               difficulty := r.difficulty.getD "N/A"
               question_text := r.qText.getD "問題文がありません"
               choices := [c1, c2, c3, c4]
               correct_answer_index := (k - 1).toNat
               comment := r.comment.getD "" }], w) ∧
    (((k - 1).toNat : Int) = k - 1) := by
  refine ⟨parse_row_step_valid b w r c1 c2 c3 c4 cs k h1 h1n h2 h2n h3 h3n
    h4 h4n hstat hcs hk hk1 hk4, ?_⟩
  omega

/-- Witness for C2: the concrete row `rValid` (correct = "3") loads to
exactly the record `qValid` with zero-based index 2 and no warning. -/
theorem c2_witness : parse_row_step ([], []) rValid = ([qValid], []) := by
  have h := c2_valid_row_loaded [] [] rValid "a" "b" "c" "d" "3" 3
    (by decide) (by decide) (by decide) (by decide) (by decide) (by decide)
    (by decide) (by decide) (by decide) (by decide) (by decide)
    (by decide) (by decide)
  rw [h.1]
  decide

/-- C3: a row whose ステータス cell strips to 無効 is skipped by the loader
loop before all other validation: the accumulated questions and warnings are
both left unchanged, and deleting the row from a file does not change the
load result at all. -/
theorem c3_disabled_row_skipped (r : Row)
    (h : pyStrip (r.status.getD "有効") = "無効") :
    (∀ acc, parse_row_step acc r = acc) ∧
    (∀ f : CSVFile, ∀ pre post, f.rows = pre ++ r :: post →
      load_questions_from_csv f =
        load_questions_from_csv ⟨f.header, pre ++ post⟩) := by
  have hstep : ∀ acc, parse_row_step acc r = acc := by
    intro acc
    unfold parse_row_step
    rw [if_pos h]
  refine ⟨hstep, ?_⟩
  intro f pre post hrows
  unfold load_questions_from_csv
  rw [hrows]
  simp [List.foldl_append, hstep]

/-- Witness for C3: the disabled row `rDis` (which would also fail the
choice-count and range checks) is dropped with no warning, both at the step
level and for a whole one-row file. -/
theorem c3_witness :
    parse_row_step ([], []) rDis = ([], []) ∧
    load_questions_from_csv ⟨csvHeaders, [rDis]⟩ =
      load_questions_from_csv ⟨csvHeaders, []⟩ := by
  have h := c3_disabled_row_skipped rDis (by decide)
  exact ⟨h.1 ([], []), h.2 ⟨csvHeaders, [rDis]⟩ [] [] rfl⟩

/-- C5: with an active question, `process_answer` on a chosen text that is
not among the question's choices fails (Python's `list.index` raises
`ValueError` before any state is mutated, modelled as `none`), and on a
chosen text that does occur — possibly several times — correctness is
decided by the first matching index: the appended entry is marked correct
iff `indexOf` of the chosen text (which points at the first occurrence, as
the two final conjuncts state) equals `correct_answer_index`. -/
theorem c5_invalid_choice (s : SessionState) (q : Question) (c : String)
    (hq : s.questions[s.current_question_index]? = some q) :
    (c ∉ q.choices → process_answer s c = none) ∧
    (c ∈ q.choices → q.correct_answer_index < q.choices.length →
      ∃ s' e, process_answer s c = some s' ∧
        s'.answered_details = s.answered_details ++ [e] ∧
        (e.is_correct = true ↔ q.choices.indexOf c = q.correct_answer_index) ∧
        q.choices.getD (q.choices.indexOf c) "" = c ∧
        (∀ j, j < q.choices.indexOf c → q.choices.getD j "" ≠ c)) := by
  constructor
  · intro hc
    simp only [process_answer, hq, if_neg hc]
  · intro hc hidx
    obtain ⟨ct, hct⟩ : ∃ ct, q.choices[q.correct_answer_index]? = some ct :=
      ⟨q.choices.get ⟨q.correct_answer_index, hidx⟩,
        List.getElem?_eq_getElem hidx⟩
    cases hp : process_answer s c with
    | none =>
      simp only [process_answer, hq, if_pos hc, hct] at hp
      exact Option.noConfusion hp
    | some s' =>
      have hp0 := hp
      simp only [process_answer, hq, if_pos hc, hct, Option.some.injEq] at hp
      refine ⟨s',
        { question_id := q.id, question_text := q.question_text
          user_choice_text := c, correct_answer_text := ct
          is_correct := q.choices.indexOf c == q.correct_answer_index
          comment := q.comment },
        rfl, ?_, ?_, getD_indexOf_of_mem hc,
        fun j hj => getD_lt_indexOf_ne hj⟩
      · rw [← hp]
      · simp [beq_iff_eq]

/-- Witness for C5 at a concrete session: on `sDup` (choices
["a","a","b","c"], correct index 1) the invalid text "z" fails, and the
duplicated text "a" is matched at its first occurrence (index 0), so the
answer is recorded as incorrect even though "a" also sits at the correct
index 1. -/
theorem c5_witness :
    process_answer sDup "z" = none ∧
    (∃ s' e, process_answer sDup "a" = some s' ∧
      s'.answered_details = [e] ∧ e.is_correct = false) := by
  constructor
  · exact (c5_invalid_choice sDup qDup "z" (by decide)).1 (by decide)
  · obtain ⟨s', e, hp, hdet, hiff, hfirst, hmin⟩ :=
      (c5_invalid_choice sDup qDup "a" (by decide)).2 (by decide) (by decide)
    refine ⟨s', e, hp, by simpa using hdet, ?_⟩
    cases he : e.is_correct with
    | false => rfl
    | true => exact absurd (hiff.mp he) (by decide)

/-- C4 counterexample: the claimed `selectPool(bank, D, N)` behaviour is
false of the code.  Starting a quiz on the one-question bank `[qB]`
(difficulty "B") reaches the session `sB` whose pool is the whole bank, so
for D = ["A"] and N = 5 the pool neither contains only difficulty-"A"
records nor has the claimed size min 5 0 = 0: the code never filters by
difficulty nor samples a requested count. -/
theorem c4_counterexample :
    start_quiz_rel initial_session_state [qB] sB ∧
    ¬ selectPoolSpec [qB] ["A"] 5 sB.questions := by
  constructor
  · decide
  · intro h
    exact absurd (h.1 qB (by decide)) (by decide)

/-- C4 (amended): `start_quiz` performs no difficulty filtering and no count
sampling: on a non-empty loaded bank the session's pool is the entire bank
in shuffled order — a permutation of the bank, hence of the bank's full
size, containing exactly the bank's records, with no duplicates beyond the
bank's own — and the cursor, score and transcript are reset; on an empty
bank no session is started (the quiz-started flag is false and the pool
empty), rather than an error being raised. -/
theorem c4_start_quiz_pool (prev : SessionState) (bank : List Question)
    (s : SessionState) (h : start_quiz_rel prev bank s) :
    (bank ≠ [] →
      s.questions.Perm bank ∧ s.questions.length = bank.length ∧
      (∀ q, q ∈ s.questions ↔ q ∈ bank) ∧
      (bank.Nodup → s.questions.Nodup) ∧
      s.current_question_index = 0 ∧ s.score = 0 ∧
      s.answered_details = [] ∧ s.quiz_started = true) ∧
    (bank = [] → s.quiz_started = false ∧ s.questions = []) := by
  constructor
  · intro hne
    unfold start_quiz_rel at h
    rw [if_neg hne] at h
    obtain ⟨hperm, hstarted, hidx, hscore, hdet, _, _, _⟩ := h
    exact ⟨hperm, hperm.length_eq, fun q => hperm.mem_iff,
      fun hn => hperm.symm.nodup hn, hidx, hscore, hdet, hstarted⟩
  · intro hb
    unfold start_quiz_rel at h
    rw [if_pos hb] at h
    rw [h]
    exact ⟨rfl, rfl⟩

/-- Witness for C4 at concrete starts: `sB` results from starting on the
bank `[qB]` and its pool is that whole bank; starting on the empty bank
leaves the initial (not-started) state unchanged, with no error. -/
theorem c4_witness :
    (sB.questions.Perm [qB] ∧ sB.questions.length = 1 ∧ sB.score = 0) ∧
    (initial_session_state.quiz_started = false ∧
      initial_session_state.questions = []) := by
  have h1 := (c4_start_quiz_pool initial_session_state [qB] sB
    (by decide)).1 (by decide)
  have h2 := (c4_start_quiz_pool initial_session_state []
    initial_session_state (by decide)).2 rfl
  exact ⟨⟨h1.1, h1.2.1.trans (by decide), h1.2.2.2.2.2.1⟩, h2⟩

/-- C6 counterexample: for the file `f9`, whose header lacks exactly the
required column 正解, the loader fails — but the error reports the full
nine-element required-header list, not exactly the missing column names:
the reported list differs from ["正解"] and names 問題No, which is present
in the header, not missing. -/
theorem c6_counterexample :
    load_questions_from_csv f9 = LoadResult.schemaError requiredHeaders ∧
    requiredHeaders.filter (fun c => !(f9.header.contains c)) = ["正解"] ∧
    requiredHeaders ≠ ["正解"] ∧
    "問題No" ∈ requiredHeaders ∧ f9.header.contains "問題No" = true := by
  refine ⟨?_, by decide, by decide, by decide, by decide⟩
  decide

/-- C6 (amended): if the source exists but its header lacks one or more
required columns, `load_questions_from_csv` fails with the schema error —
whose message names the full required-column list (from which the missing
ones can be inferred by comparison), not exactly the missing ones — and
returns no records. -/
theorem c6_schema_error (f : CSVFile)
    (h : requiredHeaders.all (fun c => f.header.contains c) = false) :
    load_questions_from_csv f = LoadResult.schemaError requiredHeaders ∧
    ∀ b w, load_questions_from_csv f ≠ LoadResult.ok b w := by
  have hcond : ¬ (requiredHeaders.all (fun c => f.header.contains c) = true) := by
    rw [h]
    exact Bool.false_ne_true
  constructor
  · unfold load_questions_from_csv
    rw [if_neg hcond]
  · intro b w
    unfold load_questions_from_csv
    rw [if_neg hcond]
    exact fun hco => LoadResult.noConfusion hco

/-- Witness for C6: the concrete header of `f9` fails the check and loads
to the schema error, never to a bank. -/
theorem c6_witness :
    requiredHeaders.all (fun c => f9.header.contains c) = false ∧
    load_questions_from_csv f9 = LoadResult.schemaError requiredHeaders ∧
    load_questions_from_csv f9 ≠ LoadResult.ok [] [] := by
  have h := c6_schema_error f9 (by decide)
  exact ⟨by decide, h.1, h.2 [] []⟩

/-- C7 counterexample: the round-trip claim fails without a condition on
ステータス.  `rDisAdd` has a valid 1-based correct index ("2" parses to 2)
and four non-empty choices, yet after appending it to an empty file the
next (cache-invalidated) load returns an empty bank: the appended record is
not surfaced, because its status 無効 makes the loader skip it. -/
theorem c7_counterexample :
    rowChoices rDisAdd = ["w", "x", "y", "z"] ∧
    rDisAdd.correct = some "2" ∧ pyInt "2" = some 2 ∧
    (load_cached (add_question_to_csv stEmptyApp rDisAdd)).1 =
      LoadResult.ok [] [] := by
  refine ⟨by decide, by decide, by decide, ?_⟩
  decide

/-- C7 (amended): appending a row whose four choices are non-empty, whose
正解 cell parses to k with 1 ≤ k ≤ 4, and whose status does not strip to
無効, and then loading — through the cache, which the append cleared — yields
the previous file's bank plus exactly the appended record at the end, with
id, difficulty, text, the four choices in order, zero-based correct index
k - 1, and comment equal to those written; any stale cached result is
ignored because the append invalidated it. -/
theorem c7_append_roundtrip (st : AppState) (r : Row)
    (qNo diff text c1 c2 c3 c4 cs comm stat : String) (k : Int)
    (hr : r = ⟨some qNo, some diff, some text, some c1, some c2, some c3,
               some c4, some cs, some comm, some stat⟩)
    (h1n : c1 ≠ "") (h2n : c2 ≠ "") (h3n : c3 ≠ "") (h4n : c4 ≠ "")
    (hk : pyInt cs = some k) (hk1 : 1 ≤ k) (hk4 : k ≤ 4)
    (hstat : pyStrip stat ≠ "無効")
    (hdr : requiredHeaders.all (fun c =>
      (add_question_to_csv st r).file.header.contains c) = true) :
    (load_cached (add_question_to_csv st r)).1 =
      LoadResult.ok
        ((st.file.rows.foldl parse_row_step ([], [])).1 ++
          [{ id := qNo, difficulty := diff, question_text := text
             choices := [c1, c2, c3, c4]
             correct_answer_index := (k - 1).toNat
             comment := comm }])
        (st.file.rows.foldl parse_row_step ([], [])).2 := by
  subst hr
  simp only [add_question_to_csv] at hdr ⊢
  simp only [load_cached]
  unfold load_questions_from_csv
  rw [if_pos hdr]
  rw [List.foldl_append]
  simp only [List.foldl_cons, List.foldl_nil]
  cases hfold : st.file.rows.foldl parse_row_step ([], []) with
  | mk oldB oldW =>
    have hstep := parse_row_step_valid oldB oldW
      ⟨some qNo, some diff, some text, some c1, some c2, some c3,
       some c4, some cs, some comm, some stat⟩
      c1 c2 c3 c4 cs k rfl h1n rfl h2n rfl h3n rfl h4n hstat rfl hk hk1 hk4
    rw [hstep]
    simp

/-- Witness for C7: appending the concrete valid row `rAdd` to an empty file
carrying a stale cache, then loading, yields exactly the bank `[qAdd]`. -/
theorem c7_witness :
    (load_cached (add_question_to_csv stEmptyApp rAdd)).1 =
      LoadResult.ok [qAdd] [] := by
  have h := c7_append_roundtrip stEmptyApp rAdd "Q7" "S" "added" "w" "x" "y"
    "z" "2" "note" "有効" 2 rfl (by decide) (by decide) (by decide)
    (by decide) (by decide) (by decide) (by decide) (by decide) (by decide)
  rw [h]
  decide

/-- C8 counterexample: on a session with an empty pool `display_results`
does not report accuracy 0 — it reports no accuracy value at all (showing a
warning instead). -/
theorem c8_counterexample :
    display_results_accuracy initial_session_state = none ∧
    display_results_accuracy initial_session_state ≠ some 0 := by
  refine ⟨rfl, ?_⟩
  intro h
  rw [show display_results_accuracy initial_session_state = none from rfl] at h
  exact Option.noConfusion h

/-- C8 (amended): for every session, the displayed accuracy is
score / total * 100 when total > 0, and when total = 0 no accuracy value is
produced (display_results shows a warning instead); in neither case is a
division by zero evaluated. -/
theorem c8_accuracy (s : SessionState) :
    (0 < s.questions.length →
      display_results_accuracy s =
        some (((s.score : ℚ) / (s.questions.length : ℚ)) * 100)) ∧
    (s.questions.length = 0 → display_results_accuracy s = none) := by
  constructor
  · intro h
    unfold display_results_accuracy
    rw [if_pos h]
  · intro h
    unfold display_results_accuracy
    rw [if_neg (by omega)]

/-- Witness for C8: a finished one-question perfect session has accuracy
100; the empty initial session has no accuracy value. -/
theorem c8_witness :
    display_results_accuracy sOneDone = some 100 ∧
    display_results_accuracy initial_session_state = none := by
  constructor
  · have h := (c8_accuracy sOneDone).1 (by decide)
    rw [h]
    norm_num [sOneDone]
  · exact (c8_accuracy initial_session_state).2 rfl

/-- C9: a row that passes validation (non-empty choices, parseable in-range
correct index, not disabled) but whose id, difficulty, text and comment
columns are absent is loaded with the defaults of app.py lines 94-101: the
id is the synthesized sequential id (one past the number of questions
accumulated so far), the difficulty "N/A", the text the placeholder
問題文がありません, and the comment empty. -/
theorem c9_defaults (b : List Question) (w : List Warning)
    (c1 c2 c3 c4 cs : String) (k : Int) (stat : Option String)
    (h1n : c1 ≠ "") (h2n : c2 ≠ "") (h3n : c3 ≠ "") (h4n : c4 ≠ "")
    (hk : pyInt cs = some k) (hk1 : 1 ≤ k) (hk4 : k ≤ 4)
    (hstat : pyStrip (stat.getD "有効") ≠ "無効") :
    parse_row_step (b, w)
      ⟨none, none, none, some c1, some c2, some c3, some c4,
       some cs, none, stat⟩ =
      (b ++ [{ id := toString (b.length + 1), difficulty := "N/A"
               question_text := "問題文がありません"
               choices := [c1, c2, c3, c4]
               correct_answer_index := (k - 1).toNat
               comment := "" }], w) := by
  have h := parse_row_step_valid b w
    ⟨none, none, none, some c1, some c2, some c3, some c4,
     some cs, none, stat⟩
    c1 c2 c3 c4 cs k rfl h1n rfl h2n rfl h3n rfl h4n hstat rfl hk hk1 hk4
  simpa using h

/-- Witness for C9: a concrete row with only choices and 正解 present loads
with synthesized id "1", difficulty "N/A", placeholder text and empty
comment. -/
theorem c9_witness :
    parse_row_step ([], [])
      ⟨none, none, none, some "a", some "b", some "c", some "d",
       some "1", none, none⟩ =
      ([{ id := "1", difficulty := "N/A"
          question_text := "問題文がありません"
          choices := ["a", "b", "c", "d"], correct_answer_index := 0
          comment := "" }], []) := by
  have h := c9_defaults [] [] "a" "b" "c" "d" "1" 1 none (by decide)
    (by decide) (by decide) (by decide) (by decide) (by decide) (by decide)
    (by decide)
  rw [h]
  decide

/-- C10: in every reachable session state the transcript length equals the
cursor, the score is at most the cursor, and the cursor is at most the pool
size; and every further accepted answer extends the transcript by exactly
one appended entry (the transcript is append-only). -/
theorem c10_session_invariant (s : SessionState) (h : Reachable s) :
    s.answered_details.length = s.current_question_index ∧
    s.score ≤ s.current_question_index ∧
    s.current_question_index ≤ s.questions.length ∧
    (∀ c s', process_answer s c = some s' →
      ∃ e, s'.answered_details = s.answered_details ++ [e]) := by
  have happend : ∀ (t : SessionState) (c : String) (t' : SessionState),
      process_answer t c = some t' →
      ∃ e, t'.answered_details = t.answered_details ++ [e] := by
    intro t c t' hp
    obtain ⟨q, e, _, _, _, _, hd, _⟩ := process_answer_some_spec hp
    exact ⟨e, hd⟩
  induction h with
  | start prev bank next hrel hstarted =>
    by_cases hb : bank = []
    · unfold start_quiz_rel at hrel
      rw [if_pos hb] at hrel
      rw [hrel] at hstarted
      simp at hstarted
    · unfold start_quiz_rel at hrel
      rw [if_neg hb] at hrel
      obtain ⟨_, _, hidx, hscore, hdet, _, _, _⟩ := hrel
      refine ⟨?_, ?_, ?_, fun c s' hp => happend next c s' hp⟩
      · rw [hdet, hidx]
        rfl
      · rw [hscore]
        exact Nat.zero_le _
      · rw [hidx]
        exact Nat.zero_le _
  | step s c s' hr hp ih =>
    obtain ⟨hlen, hscore, hcur, _⟩ := ih
    obtain ⟨q, e, hq, hlt, hqs, hcur', hdet', hscore'⟩ :=
      process_answer_some_spec hp
    refine ⟨?_, ?_, ?_, fun c2 s2 hp2 => happend s' c2 s2 hp2⟩
    · rw [hdet', hcur', List.length_append, hlen]
      rfl
    · rcases hscore' with hs | hs <;> rw [hs, hcur'] <;> omega
    · rw [hcur', hqs]
      omega

/-- Witness for C10 at a concrete reachable state: the freshly started
session `sB` satisfies the invariant. -/
theorem c10_witness :
    sB.answered_details.length = sB.current_question_index ∧
    sB.score ≤ sB.current_question_index ∧
    sB.current_question_index ≤ sB.questions.length := by
  have h := c10_session_invariant sB
    (Reachable.start initial_session_state [qB] sB (by decide) (by decide))
  exact ⟨h.1, h.2.1, h.2.2.1⟩
